import Mathlib

/-!
Shallow embedding of the memory destination manager in jdatadst-tj.c.

Heap model: a buffer is an allocation identity together with its byte
contents.  The allocator malloc is modelled by three parameters threaded
into each operation that may allocate: a success flag, a fresh allocation
id, and a function giving the indeterminate contents of fresh memory.
ERREXIT aborts the library, so an operation that hits it returns the
error together with the state as mutated up to that point (in this file
no mutation precedes an ERREXIT inside a single operation, matching the
source).  Sizes (size_t values) are modelled as Nat: none of the checked
properties depends on machine-width wraparound, and every size reachable
through genuine allocations is far below the width bound.
-/

/-- Byte values (JOCTET). -/
abbrev Byte := Nat

/-- Identity of a heap allocation, used to observe which block free receives. -/
abbrev BufId := Nat

/-- A heap block: its allocation identity and its current byte contents. -/
structure Buffer where
  id : BufId
  data : List Byte
deriving DecidableEq

/-- The sink state: fields of my_mem_destination_mgr together with the two
public cursor fields of jpeg_destination_mgr that the file manipulates.
next_output_byte is kept as the offset of the public write pointer from the
start of buffer. -/
structure MemDest where
  next_output_byte : Nat
  free_in_buffer : Nat
  newbuffer : Option Buffer
  buffer : Buffer
  bufsize : Nat
  alloc : Bool
deriving DecidableEq

/-- The two error codes this file can raise: JERR_BUFFER_SIZE (the error the
spec calls ConfigurationError at construction and FixedBufferExhausted during
growth) and JERR_OUT_OF_MEMORY (OutOfMemory). -/
inductive JErr where
  | bufferSize
  | outOfMemory
deriving DecidableEq

/-- OUTPUT_BUF_SIZE from the source: default initial allocation size. -/
def OUTPUT_BUF_SIZE : Nat := 4096

/-- Contents of a fresh malloc of n bytes: indeterminate bytes drawn from the
junk function of the allocation model. -/
def mallocBytes (junk : Nat → Byte) (n : Nat) : List Byte :=
  (List.range n).map junk

/-- MEMCOPY(dst, src, n): the first n bytes of src overwrite the first n
bytes of dst; the rest of dst is unchanged. -/
def MEMCOPY (dst src : List Byte) (n : Nat) : List Byte :=
  src.take n ++ dst.drop n

/-- Result of one empty_mem_output_buffer call: the boolean return value,
the error raised by ERREXIT if any, the sink state after the call, and the
ids of the blocks passed to free during the call. -/
structure GrowStep where
  ret : Bool
  err : Option JErr
  dest : MemDest
  freed : List BufId
deriving DecidableEq

/-- empty_mem_output_buffer from jdatadst-tj.c, lines 85-115.  allocOk,
freshId and junk model the malloc(nextsize) call. -/
def empty_mem_output_buffer (dest : MemDest) (allocOk : Bool) (freshId : BufId)
    (junk : Nat → Byte) : GrowStep :=
  if dest.alloc = false then
    { ret := false, err := some JErr.bufferSize, dest := dest, freed := [] }
  else
    let nextsize := dest.bufsize * 2
    if allocOk = false then
      { ret := false, err := some JErr.outOfMemory, dest := dest, freed := [] }
    else
      let nextbuffer : Buffer :=
        { id := freshId
          data := MEMCOPY (mallocBytes junk nextsize) dest.buffer.data dest.bufsize }
      let freed : List BufId :=
        match dest.newbuffer with
        | some b => [b.id]
        | none => []
      { ret := true, err := none
        dest := { dest with
          newbuffer := some nextbuffer
          next_output_byte := dest.bufsize
          free_in_buffer := dest.bufsize
          buffer := nextbuffer
          bufsize := nextsize }
        freed := freed }

/-- term_mem_destination from jdatadst-tj.c, lines 127-134: returns the
updated contents of the two caller slots (*outbuffer, *outsize). -/
def term_mem_destination (dest : MemDest) (outbuffer : Option Buffer) :
    Option Buffer × Nat :=
  ((if dest.alloc then some dest.buffer else outbuffer),
   dest.bufsize - dest.free_in_buffer)

/-- Result of one jpeg_mem_dest_tj call: the error raised by ERREXIT if any,
the destination object attached to cinfo after the call (none when it was
never created), and the updated caller slots.  The outer Option on the slots
records whether the slot pointer itself was null. -/
structure ConstructOut where
  err : Option JErr
  dest : Option MemDest
  outbuffer : Option (Option Buffer)
  outsize : Option Nat
deriving DecidableEq

/-- The destination object at line 169 of the source: the existing one when
cinfo already has a destination, otherwise a freshly alloc_small block whose
fields are indeterminate (uninit) except newbuffer, which line 166 nulls. -/
def destBase (prev : Option MemDest) (uninit : MemDest) : MemDest :=
  match prev with
  | some d => d
  | none => { uninit with newbuffer := none }

/-- jpeg_mem_dest_tj from jdatadst-tj.c, lines 148-190.  prev is the
destination already attached to cinfo (none on first use); uninit supplies
the indeterminate fields of a freshly allocated destination object; allocOk,
freshId and junk model the malloc(OUTPUT_BUF_SIZE) call. -/
def jpeg_mem_dest_tj (prev : Option MemDest) (uninit : MemDest)
    (outbuffer : Option (Option Buffer)) (outsize : Option Nat) (alloc : Bool)
    (allocOk : Bool) (freshId : BufId) (junk : Nat → Byte) : ConstructOut :=
  if outbuffer = none ∨ outsize = none then
    { err := some JErr.bufferSize, dest := prev
      outbuffer := outbuffer, outsize := outsize }
  else
    let ob0 : Option Buffer := outbuffer.getD none
    let os0 : Nat := outsize.getD 0
    let d1 : MemDest := { destBase prev uninit with alloc := alloc }
    if ob0 = none ∨ os0 = 0 then
      if alloc then
        if allocOk = false then
          { err := some JErr.outOfMemory, dest := some d1
            outbuffer := outbuffer, outsize := outsize }
        else
          let nb : Buffer := { id := freshId, data := mallocBytes junk OUTPUT_BUF_SIZE }
          let d2 : MemDest := { d1 with newbuffer := some nb }
          { err := none
            dest := some { d2 with
              next_output_byte := 0, free_in_buffer := OUTPUT_BUF_SIZE
              buffer := nb, bufsize := OUTPUT_BUF_SIZE }
            outbuffer := some (some nb), outsize := some OUTPUT_BUF_SIZE }
      else
        { err := some JErr.bufferSize, dest := some d1
          outbuffer := outbuffer, outsize := outsize }
    else
      { err := none
        dest := some { d1 with
          next_output_byte := 0, free_in_buffer := os0
          buffer := ob0.getD d1.buffer, bufsize := os0 }
        outbuffer := outbuffer, outsize := outsize }

/-- One producer write through the public interface: store a byte at the
write pointer, advance it, and decrement free_in_buffer. -/
def writeByte (d : MemDest) (b : Byte) : MemDest :=
  { d with
    buffer := { d.buffer with data := d.buffer.data.set d.next_output_byte b }
    next_output_byte := d.next_output_byte + 1
    free_in_buffer := d.free_in_buffer - 1 }

/-- A producer session: starting from d0, perform n byte writes interleaved
with successful growth calls, under the library call protocol (writes only
into available room; empty_mem_output_buffer only when the buffer is full). -/
inductive ProdRun : MemDest → Nat → MemDest → Prop where
  | start (d : MemDest) : ProdRun d 0 d
  | write (d0 : MemDest) (n : Nat) (d : MemDest) (b : Byte)
      (hrun : ProdRun d0 n d) (hroom : 0 < d.free_in_buffer) :
      ProdRun d0 (n + 1) (writeByte d b)
  | grow (d0 : MemDest) (n : Nat) (d : MemDest) (ok : Bool) (i : BufId)
      (j : Nat → Byte) (hrun : ProdRun d0 n d) (hfull : d.free_in_buffer = 0)
      (hret : (empty_mem_output_buffer d ok i j).ret = true) :
      ProdRun d0 n (empty_mem_output_buffer d ok i j).dest

/-- One successful growth event: some allocator outcome makes
empty_mem_output_buffer return TRUE and move the sink from d to d2. -/
def SuccGrow (d d2 : MemDest) : Prop :=
  ∃ ok i j, (empty_mem_output_buffer d ok i j).ret = true ∧
    (empty_mem_output_buffer d ok i j).dest = d2

/-- k successful growth events in sequence. -/
def SuccGrowN : Nat → MemDest → MemDest → Prop
  | 0, d, d2 => d2 = d
  | k + 1, d, d2 => ∃ m, SuccGrow d m ∧ SuccGrowN k m d2

/-- The buffer built by a successful growth call: a fresh block of twice the
old capacity whose first bufsize bytes were copied from the old buffer. -/
def growBuf (d : MemDest) (i : BufId) (j : Nat → Byte) : Buffer :=
  { id := i, data := MEMCOPY (mallocBytes j (d.bufsize * 2)) d.buffer.data d.bufsize }

/-- Concrete state: a full sink over a library owned two byte buffer, as left
by a previous growth or by an initial library allocation (newbuffer equals
the current buffer in both cases). -/
def exOwnedFull : MemDest :=
  { next_output_byte := 2, free_in_buffer := 0
    newbuffer := some { id := 1, data := [7, 7] }
    buffer := { id := 1, data := [7, 7] }, bufsize := 2, alloc := true }

/-- Concrete state: a full sink over a caller supplied two byte buffer with
growth permitted. -/
def exBorrowedGrow : MemDest :=
  { next_output_byte := 2, free_in_buffer := 0
    newbuffer := none
    buffer := { id := 0, data := [3, 4] }, bufsize := 2, alloc := true }

/-- Concrete state: a full sink over a caller supplied fixed buffer with
growth forbidden. -/
def exFixed : MemDest :=
  { next_output_byte := 2, free_in_buffer := 0
    newbuffer := none
    buffer := { id := 0, data := [3, 4] }, bufsize := 2, alloc := false }

/-- Concrete state: a freshly constructed sink over an empty two byte
buffer, ready for a producer session. -/
def exFresh : MemDest :=
  { next_output_byte := 0, free_in_buffer := 2
    newbuffer := none
    buffer := { id := 0, data := [0, 0] }, bufsize := 2, alloc := true }

/-- Concrete stand in for the indeterminate fields of a freshly allocated
destination object. -/
def exUninit : MemDest :=
  { next_output_byte := 11, free_in_buffer := 22
    newbuffer := some { id := 33, data := [9] }
    buffer := { id := 44, data := [8] }, bufsize := 55, alloc := true }

/-- Fixed junk pattern standing for the contents of fresh memory in concrete
evaluations. -/
def exJunk : Nat → Byte := fun _ => 0

/-- A growth call returns TRUE exactly when growth is permitted and the
allocation succeeds. -/
theorem grow_ret_iff (d : MemDest) (ok : Bool) (i : BufId) (j : Nat → Byte) :
    (empty_mem_output_buffer d ok i j).ret = true ↔ d.alloc = true ∧ ok = true := by
  cases h : d.alloc <;> cases ok <;> simp [empty_mem_output_buffer, h]

/-- Explicit form of a successful growth call. -/
theorem grow_success_eq (d : MemDest) (i : BufId) (j : Nat → Byte)
    (h : d.alloc = true) :
    empty_mem_output_buffer d true i j =
      { ret := true, err := none
        dest := { d with
          newbuffer := some (growBuf d i j)
          next_output_byte := d.bufsize
          free_in_buffer := d.bufsize
          buffer := growBuf d i j
          bufsize := d.bufsize * 2 }
        freed := match d.newbuffer with | some b => [b.id] | none => [] } := by
  simp [empty_mem_output_buffer, growBuf, h]

/-- A fresh malloc of n bytes has exactly n bytes. -/
theorem mallocBytes_length (junk : Nat → Byte) (n : Nat) :
    (mallocBytes junk n).length = n := by
  simp [mallocBytes]

/-- Counting invariant of a producer session: on a sink constructed with the
write window covering the whole buffer, the cursor bufsize minus
free_in_buffer equals the number of bytes written so far. -/
theorem prodRun_count (d0 : MemDest) (n : Nat) (d : MemDest)
    (hrun : ProdRun d0 n d) (hinit : d0.free_in_buffer = d0.bufsize) :
    d.free_in_buffer ≤ d.bufsize ∧ d.bufsize - d.free_in_buffer = n := by
  induction hrun with
  | start => simp [hinit]
  | write n d b hrun hroom ih =>
      rcases ih with ⟨h1, h2⟩
      refine ⟨?_, ?_⟩ <;> simp [writeByte] <;> omega
  | grow n d ok i j hrun hfull hret ih =>
      rcases ih with ⟨h1, h2⟩
      rcases (grow_ret_iff d ok i j).mp hret with ⟨ha, hok⟩
      subst hok
      rw [grow_success_eq d i j ha]
      refine ⟨?_, ?_⟩ <;> simp <;> omega

/-- Each successful growth event doubles the capacity. -/
theorem succGrow_bufsize (d d2 : MemDest) (h : SuccGrow d d2) :
    d2.bufsize = d.bufsize * 2 := by
  rcases h with ⟨ok, i, j, hret, hdest⟩
  rcases (grow_ret_iff d ok i j).mp hret with ⟨ha, hok⟩
  subst hok
  rw [grow_success_eq d i j ha] at hdest
  rw [← hdest]

/-- Claim C2: for every successful growth event (empty_mem_output_buffer
returning TRUE), the first bufsize bytes of the new buffer equal the first
bufsize bytes of the old buffer byte for byte, where bufsize is the entire
previous capacity, not merely the bytes written up to the cursor. -/
theorem C2_growth_preserves_all_capacity_bytes (d : MemDest) (ok : Bool)
    (i : BufId) (j : Nat → Byte)
    (hret : (empty_mem_output_buffer d ok i j).ret = true)
    (hlen : d.bufsize ≤ d.buffer.data.length) :
    (empty_mem_output_buffer d ok i j).dest.buffer.data.take d.bufsize
      = d.buffer.data.take d.bufsize := by
  rcases (grow_ret_iff d ok i j).mp hret with ⟨ha, hok⟩
  subst hok
  rw [grow_success_eq d i j ha]
  show (MEMCOPY (mallocBytes j (d.bufsize * 2)) d.buffer.data d.bufsize).take d.bufsize
    = d.buffer.data.take d.bufsize
  rw [MEMCOPY, List.take_append_of_le_length (by simp [hlen]), List.take_take]
  simp

/-- Witness for C2 at a concrete full sink. -/
theorem C2_witness :
    (empty_mem_output_buffer exBorrowedGrow true 5 exJunk).dest.buffer.data.take
        exBorrowedGrow.bufsize
      = exBorrowedGrow.buffer.data.take exBorrowedGrow.bufsize :=
  C2_growth_preserves_all_capacity_bytes exBorrowedGrow true 5 exJunk
    (by decide) (by decide)

/-- Claim C5: on a sink constructed with growth forbidden, every growth call
fails with JERR_BUFFER_SIZE (the FixedBufferExhausted condition of the spec)
whatever the buffer size, and the sink state, hence its buffer, capacity and
cursor, is unchanged, with nothing freed. -/
theorem C5_fixed_buffer_growth_always_fails (d : MemDest) (ok : Bool)
    (i : BufId) (j : Nat → Byte) (h : d.alloc = false) :
    (empty_mem_output_buffer d ok i j).err = some JErr.bufferSize ∧
    (empty_mem_output_buffer d ok i j).ret = false ∧
    (empty_mem_output_buffer d ok i j).dest = d ∧
    (empty_mem_output_buffer d ok i j).freed = [] := by
  simp [empty_mem_output_buffer, h]

/-- Witness for C5 at a concrete fixed sink. -/
theorem C5_witness :
    (empty_mem_output_buffer exFixed true 5 exJunk).err = some JErr.bufferSize ∧
    (empty_mem_output_buffer exFixed true 5 exJunk).ret = false ∧
    (empty_mem_output_buffer exFixed true 5 exJunk).dest = exFixed ∧
    (empty_mem_output_buffer exFixed true 5 exJunk).freed = [] :=
  C5_fixed_buffer_growth_always_fails exFixed true 5 exJunk (by decide)

/-- Claim C6: after every successful growth call, the cursor
(next_output_byte offset) equals the old capacity, the capacity equals twice
the old capacity, free_in_buffer equals the remaining room capacity minus
cursor, and that room is at least the old capacity. -/
theorem C6_growth_cursor_and_room (d : MemDest) (ok : Bool) (i : BufId)
    (j : Nat → Byte) (hret : (empty_mem_output_buffer d ok i j).ret = true) :
    (empty_mem_output_buffer d ok i j).dest.next_output_byte = d.bufsize ∧
    (empty_mem_output_buffer d ok i j).dest.bufsize = d.bufsize * 2 ∧
    (empty_mem_output_buffer d ok i j).dest.free_in_buffer =
      (empty_mem_output_buffer d ok i j).dest.bufsize -
        (empty_mem_output_buffer d ok i j).dest.next_output_byte ∧
    d.bufsize ≤ (empty_mem_output_buffer d ok i j).dest.free_in_buffer := by
  rcases (grow_ret_iff d ok i j).mp hret with ⟨ha, hok⟩
  subst hok
  rw [grow_success_eq d i j ha]
  refine ⟨rfl, rfl, ?_, le_refl _⟩
  show d.bufsize = d.bufsize * 2 - d.bufsize
  omega

/-- Witness for C6 at a concrete full sink. -/
theorem C6_witness :
    (empty_mem_output_buffer exBorrowedGrow true 6 exJunk).dest.next_output_byte
      = exBorrowedGrow.bufsize ∧
    (empty_mem_output_buffer exBorrowedGrow true 6 exJunk).dest.bufsize
      = exBorrowedGrow.bufsize * 2 ∧
    (empty_mem_output_buffer exBorrowedGrow true 6 exJunk).dest.free_in_buffer =
      (empty_mem_output_buffer exBorrowedGrow true 6 exJunk).dest.bufsize -
        (empty_mem_output_buffer exBorrowedGrow true 6 exJunk).dest.next_output_byte ∧
    exBorrowedGrow.bufsize ≤
      (empty_mem_output_buffer exBorrowedGrow true 6 exJunk).dest.free_in_buffer :=
  C6_growth_cursor_and_room exBorrowedGrow true 6 exJunk (by decide)

/-- Claim C9: when the allocation of the doubled buffer fails, the growth
call fails with JERR_OUT_OF_MEMORY and the entire prior sink state, buffer,
contents, capacity, cursor and deferred release slot, is unchanged, with
nothing freed. -/
theorem C9_growth_alloc_failure_state_unchanged (d : MemDest) (i : BufId)
    (j : Nat → Byte) (h : d.alloc = true) :
    (empty_mem_output_buffer d false i j).err = some JErr.outOfMemory ∧
    (empty_mem_output_buffer d false i j).ret = false ∧
    (empty_mem_output_buffer d false i j).dest = d ∧
    (empty_mem_output_buffer d false i j).freed = [] := by
  simp [empty_mem_output_buffer, h]

/-- Witness for C9 at a concrete full sink. -/
theorem C9_witness :
    (empty_mem_output_buffer exOwnedFull false 7 exJunk).err = some JErr.outOfMemory ∧
    (empty_mem_output_buffer exOwnedFull false 7 exJunk).ret = false ∧
    (empty_mem_output_buffer exOwnedFull false 7 exJunk).dest = exOwnedFull ∧
    (empty_mem_output_buffer exOwnedFull false 7 exJunk).freed = [] :=
  C9_growth_alloc_failure_state_unchanged exOwnedFull 7 exJunk (by decide)

/-- Claim C4: for every initial capacity and every sequence of k successful
growth events, the capacity after the k th event equals the initial capacity
times 2 to the k. -/
theorem C4_capacity_doubles_per_growth (k : Nat) (d d2 : MemDest)
    (h : SuccGrowN k d d2) : d2.bufsize = d.bufsize * 2 ^ k := by
  induction k generalizing d with
  | zero =>
      simp only [SuccGrowN] at h
      simp [h]
  | succ k ih =>
      rcases h with ⟨m, hstep, hrest⟩
      rw [ih m hrest, succGrow_bufsize d m hstep]
      ring

/-- Witness for C4: one successful growth on a concrete sink. -/
theorem C4_witness :
    (empty_mem_output_buffer exBorrowedGrow true 8 exJunk).dest.bufsize
      = exBorrowedGrow.bufsize * 2 ^ 1 :=
  C4_capacity_doubles_per_growth 1 exBorrowedGrow
    (empty_mem_output_buffer exBorrowedGrow true 8 exJunk).dest
    ⟨(empty_mem_output_buffer exBorrowedGrow true 8 exJunk).dest,
      ⟨true, 8, exJunk, by decide, rfl⟩, rfl⟩

/-- Claim C3: at finish, the value stored into the caller output size slot
equals the cursor, bufsize minus free_in_buffer, which over any producer
session under the library call protocol equals the number of bytes actually
written, and never equals the allocated capacity when the capacity exceeds
the bytes written. -/
theorem C3_term_reports_bytes_written (d0 d : MemDest) (n : Nat)
    (ob : Option Buffer) (hinit : d0.free_in_buffer = d0.bufsize)
    (hrun : ProdRun d0 n d) :
    (term_mem_destination d ob).2 = d.bufsize - d.free_in_buffer ∧
    (term_mem_destination d ob).2 = n ∧
    (n < d.bufsize → (term_mem_destination d ob).2 ≠ d.bufsize) := by
  rcases prodRun_count d0 n d hrun hinit with ⟨h1, h2⟩
  refine ⟨rfl, h2, ?_⟩
  intro hlt
  show d.bufsize - d.free_in_buffer ≠ d.bufsize
  omega

/-- Witness for C3: a concrete session of two writes and one growth reports
two bytes written. -/
theorem C3_witness :
    (term_mem_destination
        (empty_mem_output_buffer (writeByte (writeByte exFresh 7) 8) true 9 exJunk).dest
        none).2 = 2 :=
  (C3_term_reports_bytes_written exFresh
      (empty_mem_output_buffer (writeByte (writeByte exFresh 7) 8) true 9 exJunk).dest
      2 none (by decide)
      (ProdRun.grow exFresh 2 (writeByte (writeByte exFresh 7) 8) true 9 exJunk
        (ProdRun.write exFresh 1 (writeByte exFresh 7) 8
          (ProdRun.write exFresh 0 exFresh 7 (ProdRun.start exFresh) (by decide))
          (by decide))
        (by decide) (by decide))).2.1

/-- Counterexample to claim C1 as stated: on a sink whose current buffer is
the most recent library allocation (newbuffer equals buffer, the situation
after every successful growth and after a library made initial allocation),
a successful growth call frees the very buffer it is replacing, and the
deferred release slot afterwards holds the new allocation, not the buffer
replaced this call. -/
theorem C1_counterexample :
    (empty_mem_output_buffer exOwnedFull true 2 exJunk).ret = true ∧
    exOwnedFull.buffer.id ∈ (empty_mem_output_buffer exOwnedFull true 2 exJunk).freed ∧
    (empty_mem_output_buffer exOwnedFull true 2 exJunk).dest.newbuffer ≠
      some exOwnedFull.buffer := by
  decide

/-- Claim C1 (amended): during a successful growth call the block freed, if
any, is exactly the one recorded in the deferred release slot newbuffer at
entry; that slot holds the most recent library made allocation, which equals
the buffer being replaced whenever that buffer is library owned, so a
library owned replaced buffer is freed within the same call, after its bytes
have been copied into the new buffer; a caller supplied buffer (slot empty)
is never freed; and afterwards the slot holds the new allocation. -/
theorem C1_free_target (d : MemDest) (ok : Bool) (i : BufId) (j : Nat → Byte)
    (hret : (empty_mem_output_buffer d ok i j).ret = true) :
    (empty_mem_output_buffer d ok i j).freed =
      (match d.newbuffer with | some b => [b.id] | none => []) ∧
    (empty_mem_output_buffer d ok i j).dest.newbuffer =
      some (empty_mem_output_buffer d ok i j).dest.buffer ∧
    (empty_mem_output_buffer d ok i j).dest.buffer.id = i ∧
    (empty_mem_output_buffer d ok i j).dest.buffer.data =
      MEMCOPY (mallocBytes j (d.bufsize * 2)) d.buffer.data d.bufsize := by
  rcases (grow_ret_iff d ok i j).mp hret with ⟨ha, hok⟩
  subst hok
  rw [grow_success_eq d i j ha]
  exact ⟨rfl, rfl, rfl, rfl⟩

/-- Witness for the amended C1 at a concrete owned sink. -/
theorem C1_witness :
    (empty_mem_output_buffer exOwnedFull true 3 exJunk).freed =
      (match exOwnedFull.newbuffer with | some b => [b.id] | none => []) ∧
    (empty_mem_output_buffer exOwnedFull true 3 exJunk).dest.newbuffer =
      some (empty_mem_output_buffer exOwnedFull true 3 exJunk).dest.buffer ∧
    (empty_mem_output_buffer exOwnedFull true 3 exJunk).dest.buffer.id = 3 ∧
    (empty_mem_output_buffer exOwnedFull true 3 exJunk).dest.buffer.data =
      MEMCOPY (mallocBytes exJunk (exOwnedFull.bufsize * 2)) exOwnedFull.buffer.data
        exOwnedFull.bufsize :=
  C1_free_target exOwnedFull true 3 exJunk (by decide)

/-- Claim C7: construction fails with JERR_BUFFER_SIZE (the ConfigurationError
of the spec) exactly when a caller slot pointer is absent, or no buffer is
supplied (null pointer or zero size) while growth is forbidden; and in those
cases no sink state is initialized from the arguments: the destination object
either is exactly what existed before the call, or carries its pre call
fields with only the growth flag reset. -/
theorem C7_construct_config_error_iff (prev : Option MemDest) (uninit : MemDest)
    (ob : Option (Option Buffer)) (os : Option Nat) (al allocOk : Bool)
    (i : BufId) (j : Nat → Byte) :
    ((jpeg_mem_dest_tj prev uninit ob os al allocOk i j).err = some JErr.bufferSize
      ↔ ob = none ∨ os = none ∨
          ((ob = some none ∨ os = some 0) ∧ al = false)) ∧
    ((jpeg_mem_dest_tj prev uninit ob os al allocOk i j).err = some JErr.bufferSize →
      (jpeg_mem_dest_tj prev uninit ob os al allocOk i j).dest = prev ∨
      (jpeg_mem_dest_tj prev uninit ob os al allocOk i j).dest =
        some { destBase prev uninit with alloc := al }) := by
  rcases ob with _ | ob0
  · simp [jpeg_mem_dest_tj]
  rcases os with _ | os0
  · simp [jpeg_mem_dest_tj]
  by_cases hempty : ob0 = none ∨ os0 = 0
  · cases al
    · simp [jpeg_mem_dest_tj, if_pos hempty, hempty]
    · cases allocOk <;> simp [jpeg_mem_dest_tj, if_pos hempty, hempty]
  · simp [jpeg_mem_dest_tj, if_neg hempty, hempty]

/-- Witness for C7: a concrete configuration error leaves the destination
uninitialized apart from the growth flag. -/
theorem C7_witness :
    (jpeg_mem_dest_tj none exUninit (some none) (some 5) false true 1 exJunk).dest
      = none ∨
    (jpeg_mem_dest_tj none exUninit (some none) (some 5) false true 1 exJunk).dest
      = some { destBase none exUninit with alloc := false } :=
  (C7_construct_config_error_iff none exUninit (some none) (some 5) false true 1
    exJunk).2 (by decide)

/-- Claim C8: construction with no buffer supplied (null pointer or zero
size) and growth allowed allocates an initial buffer of exactly 4096 bytes,
sets the output size slot to 4096, publishes the fresh buffer in the output
pointer slot, and initializes the cursor to 0 with capacity 4096; if that
allocation fails, construction fails with JERR_OUT_OF_MEMORY. -/
theorem C8_default_initial_allocation (prev : Option MemDest) (uninit : MemDest)
    (ob0 : Option Buffer) (os0 : Nat) (i : BufId) (j : Nat → Byte)
    (hempty : ob0 = none ∨ os0 = 0) :
    (jpeg_mem_dest_tj prev uninit (some ob0) (some os0) true true i j).err = none ∧
    (jpeg_mem_dest_tj prev uninit (some ob0) (some os0) true true i j).outsize
      = some 4096 ∧
    ((jpeg_mem_dest_tj prev uninit (some ob0) (some os0) true true i j).dest.map
        fun dd => (dd.bufsize, dd.next_output_byte, dd.free_in_buffer,
                   dd.buffer.data.length))
      = some (4096, 0, 4096, 4096) ∧
    (jpeg_mem_dest_tj prev uninit (some ob0) (some os0) true true i j).outbuffer
      = some (some { id := i, data := mallocBytes j OUTPUT_BUF_SIZE }) ∧
    (jpeg_mem_dest_tj prev uninit (some ob0) (some os0) true false i j).err
      = some JErr.outOfMemory := by
  rcases hempty with h | h <;> subst h <;>
    simp [jpeg_mem_dest_tj, mallocBytes_length, OUTPUT_BUF_SIZE]

/-- Witness for C8 at a concrete construction with a null buffer pointer. -/
theorem C8_witness :
    (jpeg_mem_dest_tj none exUninit (some none) (some 7) true true 3 exJunk).err
      = none ∧
    (jpeg_mem_dest_tj none exUninit (some none) (some 7) true true 3 exJunk).outsize
      = some 4096 ∧
    ((jpeg_mem_dest_tj none exUninit (some none) (some 7) true true 3 exJunk).dest.map
        fun dd => (dd.bufsize, dd.next_output_byte, dd.free_in_buffer,
                   dd.buffer.data.length))
      = some (4096, 0, 4096, 4096) ∧
    (jpeg_mem_dest_tj none exUninit (some none) (some 7) true true 3 exJunk).outbuffer
      = some (some { id := 3, data := mallocBytes exJunk OUTPUT_BUF_SIZE }) ∧
    (jpeg_mem_dest_tj none exUninit (some none) (some 7) true false 3 exJunk).err
      = some JErr.outOfMemory :=
  C8_default_initial_allocation none exUninit none 7 3 exJunk (by decide)

/-- Counterexample to claim C10 as stated: re invoking jpeg_mem_dest_tj on an
existing destination with no buffer supplied and growth allowed overwrites
the deferred release slot with the fresh initial allocation instead of
keeping the prior session value. -/
theorem C10_counterexample :
    (jpeg_mem_dest_tj (some exOwnedFull) exUninit (some none) (some 0) true true 9
        exJunk).err = none ∧
    exOwnedFull.newbuffer.map Buffer.id = some 1 ∧
    ((jpeg_mem_dest_tj (some exOwnedFull) exUninit (some none) (some 0) true true 9
        exJunk).dest.map fun dd => dd.newbuffer.map Buffer.id)
      = some (some 9) := by
  decide

/-- Claim C10 (amended): re invoking jpeg_mem_dest_tj on an existing
destination with a caller supplied nonempty buffer reinitializes every sink
field from the new arguments except the deferred release slot newbuffer,
which keeps its value from the prior session; consequently, when that kept
value is a prior session allocation, the first successful growth of the new
session passes exactly that allocation to free. -/
theorem C10_session_reuse_keeps_newbuffer (d uninit : MemDest) (b : Buffer)
    (n : Nat) (al allocOk : Bool) (i : BufId) (j : Nat → Byte) (i2 : BufId)
    (j2 : Nat → Byte) (hn : n ≠ 0) :
    (jpeg_mem_dest_tj (some d) uninit (some (some b)) (some n) al allocOk i j).err
      = none ∧
    (jpeg_mem_dest_tj (some d) uninit (some (some b)) (some n) al allocOk i j).dest
      = some { d with alloc := al, buffer := b, bufsize := n,
                      next_output_byte := 0, free_in_buffer := n } ∧
    (∀ nb, d.newbuffer = some nb →
      (empty_mem_output_buffer
          { d with alloc := true, buffer := b, bufsize := n,
                   next_output_byte := 0, free_in_buffer := n } true i2 j2).ret = true ∧
      (empty_mem_output_buffer
          { d with alloc := true, buffer := b, bufsize := n,
                   next_output_byte := 0, free_in_buffer := n } true i2 j2).freed
        = [nb.id]) := by
  refine ⟨?_, ?_, ?_⟩
  · simp [jpeg_mem_dest_tj, hn]
  · simp [jpeg_mem_dest_tj, destBase, hn]
  · intro nb hnb
    rw [grow_success_eq _ i2 j2 rfl]
    simp [hnb]

/-- Witness for the amended C10: a concrete session reuse with a caller
buffer, whose first growth frees the prior session allocation. -/
theorem C10_witness :
    (empty_mem_output_buffer
        { exOwnedFull with alloc := true, buffer := { id := 0, data := [3, 4] },
                           bufsize := 2, next_output_byte := 0, free_in_buffer := 2 } true 4
        exJunk).ret = true ∧
    (empty_mem_output_buffer
        { exOwnedFull with alloc := true, buffer := { id := 0, data := [3, 4] },
                           bufsize := 2, next_output_byte := 0, free_in_buffer := 2 } true 4
        exJunk).freed = [(({ id := 1, data := [7, 7] } : Buffer)).id] :=
  (C10_session_reuse_keeps_newbuffer exOwnedFull exUninit { id := 0, data := [3, 4] }
      2 true true 9 exJunk 4 exJunk (by decide)).2.2
    { id := 1, data := [7, 7] } (by decide)
